import Mathlib

/-
  Verification development for the Tissaia-AI repository.

  Shallow embedding of:
    - src/api/index.py          (handler.do_GET, the status endpoint)
    - src/launch_tissaia.py     (TissaiaLauncher: check_node, check_npm,
      install_dependencies, check_env_file, wait_for_server,
      start_dev_server, launch_chrome_app, stop_dev_server, cleanup,
      run, main)

  External effects (subprocess spawning, HTTP polling, stdin prompts,
  log-file writes) are modelled as explicit inputs and outputs: a run
  configuration record carries the outcome every external call would
  produce, and each embedded function returns the observable effects
  (log lines written, files created, prompts issued) alongside its
  result, so that every branch of the Python source has a counterpart
  that a reviewer can diff line by line.
-/

namespace Tissaia

/-
  ===================  src/api/index.py  ===================

  class handler(BaseHTTPRequestHandler):
      def do_GET(self):
          api_key = os.environ.get('GOOGLE_API_KEY')
          if not api_key:
              self.send_response(500); self.end_headers()
              self.wfile.write('Missing Configuration'.encode()); return
          response_data = { "status": "Alive", "backend": "Python Serverless",
                            "react_version_target": "19.2.1" }
          self.send_response(200)
          self.send_header('Content-type', 'application/json')
          self.end_headers()
          self.wfile.write(json.dumps(response_data).encode())

  Python truthiness: `not api_key` holds when the variable is absent
  (None) or set to the empty string.
-/

/-- Body of an HTTP response: either plain text or a serialized JSON
object, kept structured here as its key-value pairs. -/
inductive Body
  | text (s : String)
  | json (fields : List (String × String))
deriving DecidableEq

/-- An HTTP response as the handler produces it: status code, the
Content-type header if one was sent, and the body. -/
structure StatusResponse where
  status : Nat
  contentType : Option String
  body : Body
deriving DecidableEq

/-- The fixed dictionary the endpoint serializes on success
(src/api/index.py lines 20-24). -/
def response_data : List (String × String) :=
  [("status", "Alive"),
   ("backend", "Python Serverless"),
   ("react_version_target", "19.2.1")]

/-- handler.do_GET (src/api/index.py lines 9-29). The argument is the
value of the GOOGLE_API_KEY environment variable: none when absent,
some v when set to v. -/
def do_GET (google_api_key : Option String) : StatusResponse :=
  match google_api_key with
  | none => ⟨500, none, Body.text "Missing Configuration"⟩
  | some k =>
    if k = "" then ⟨500, none, Body.text "Missing Configuration"⟩
    else ⟨200, some "application/json", Body.json response_data⟩

/-
  =============  string helpers for the launcher  =============

  Python `needle in haystack`, `s.startswith(pre)` and `s.strip()`
  over the character sequences of the strings.
-/

/-- Python substring containment: `needle in haystack`. -/
def containsSub (needle haystack : String) : Bool :=
  decide (List.IsInfix needle.data haystack.data)

/-- Python `s.startswith(pre)`. -/
def startsWithStr (s pre : String) : Bool :=
  decide (List.IsPrefix pre.data s.data)

/-- Python `s.strip()`: drop leading and trailing whitespace. -/
def stripStr (s : String) : String :=
  String.mk (((s.data.dropWhile Char.isWhitespace).reverse.dropWhile
    Char.isWhitespace).reverse)

/-
  =============  TissaiaLauncher.check_env_file  =============
  src/launch_tissaia.py lines 279-310.

      env_file = self.root_dir / ".env"
      if env_file.exists():
          with open(env_file, 'r') as f:
              content = f.read()
              if 'API_KEY=' in content and not content.startswith('API_KEY=\n'):
                  return True
      api_key = input("  Enter your API key: ").strip()
      if api_key:
          with open(env_file, 'w') as f: f.write(f"API_KEY={api_key}\n")
      else:
          with open(env_file, 'w') as f: f.write("API_KEY=\n")
      return True
-/

/-- Observable outcome of check_env_file: the boolean it returns,
whether the interactive prompt ran, and the content written to the
.env file when a write happened. -/
structure EnvResult where
  result : Bool
  prompted : Bool
  written : Option String
deriving DecidableEq

/-- The prompt-and-write tail of check_env_file (lines 293-310),
reached when the key is not already configured. `userInput` is what
input() returns. -/
def promptBranch (userInput : String) : EnvResult :=
  if stripStr userInput = "" then
    ⟨true, true, some "API_KEY=\n"⟩
  else
    ⟨true, true, some ("API_KEY=" ++ stripStr userInput ++ "\n")⟩

/-- TissaiaLauncher.check_env_file (lines 279-310). `fileContent` is
the content of the .env file, or none when the file does not exist. -/
def check_env_file (fileContent : Option String) (userInput : String) : EnvResult :=
  match fileContent with
  | some content =>
    if containsSub "API_KEY=" content && !(startsWithStr content "API_KEY=\n") then
      ⟨true, false, none⟩
    else
      promptBranch userInput
  | none => promptBranch userInput

/-
  =============  process model and stop_dev_server  =============
  src/launch_tissaia.py lines 468-477.

      if self.dev_server_process:
          try:
              self.dev_server_process.terminate()
              self.dev_server_process.wait(timeout=5)
          except subprocess.TimeoutExpired:
              self.dev_server_process.kill()
-/

/-- A child-process handle. `alive` is whether the process is still
running; `exitsOnTerm` is whether, once terminated, it exits within
the 5-second grace period subprocess.wait is given. -/
structure Proc where
  alive : Bool
  exitsOnTerm : Bool
deriving DecidableEq

/-- The subprocess calls stop_dev_server makes on the handle. -/
inductive ProcAction
  | terminate
  | kill
deriving DecidableEq

/-- The exception subprocess.wait raises on timeout. -/
inductive TimeoutExpired
  | mk

/-- Popen.terminate: sends SIGTERM; a no-op on a process that has
already exited. The process dies within the grace period exactly when
it is alive and exits on terminate. -/
def terminate_proc (p : Proc) : Proc :=
  if p.alive && p.exitsOnTerm then { p with alive := false } else p

/-- Popen.wait(timeout=5): returns once the process has exited, raises
TimeoutExpired if it is still alive when the grace period ends. -/
def wait_proc (p : Proc) : Except TimeoutExpired Proc :=
  if p.alive then Except.error TimeoutExpired.mk else Except.ok p

/-- Popen.kill: SIGKILL, the process is gone afterwards. -/
def kill_proc (p : Proc) : Proc :=
  { p with alive := false }

/-- TissaiaLauncher.stop_dev_server (lines 468-477). Returns the
handle as the launcher still holds it (the field is never reset to
None) together with the subprocess calls made. The only exception the
body can raise, TimeoutExpired from wait, is caught. -/
def stop_dev_server (dev : Option Proc) : Option Proc × List ProcAction :=
  match dev with
  | none => (none, [])
  | some p =>
    match wait_proc (terminate_proc p) with
    | Except.ok p2 => (some p2, [ProcAction.terminate])
    | Except.error _ =>
      (some (kill_proc (terminate_proc p)), [ProcAction.terminate, ProcAction.kill])

/-- Liveness of an optional handle (none means never started). -/
def procAliveOpt : Option Proc → Bool
  | none => false
  | some p => p.alive

/-
  =============  TissaiaLauncher.wait_for_server  =============
  src/launch_tissaia.py lines 312-327.

      start_time = time.time()
      while time.time() - start_time < timeout:
          try:
              urllib.request.urlopen(self.dev_server_url, timeout=1)
              return True
          except (urllib.error.URLError, ConnectionError, TimeoutError):
              time.sleep(0.5)
      return False

  Time is modelled in tenths of a second (the default timeout of 30
  seconds is 300). A trace records the outcome of each poll attempt in
  order: a failed attempt takes `dur` tenths (at most the 1-second
  per-attempt timeout) and is followed by the 0.5-second sleep, so it
  advances the clock by dur + 5. A successful attempt returns at once.
  The trace is the complete log of attempts made available to the
  loop; an exhausted trace means no further response ever arrives.
-/

/-- One poll attempt: the request succeeds, or raises a connection
error after `dur` tenths of a second. -/
inductive PollOutcome
  | success
  | failure (dur : Nat)
deriving DecidableEq

/-- Whether an attempt was a connection error. -/
def PollOutcome.isFailure : PollOutcome → Bool
  | PollOutcome.success => false
  | PollOutcome.failure _ => true

/-- Wall-clock tenths of a second a prefix of the trace consumes. -/
def traceCost : List PollOutcome → Nat
  | [] => 0
  | PollOutcome.success :: rest => traceCost rest
  | PollOutcome.failure d :: rest => d + 5 + traceCost rest

/-- TissaiaLauncher.wait_for_server (lines 312-327): the while loop,
with `elapsed` the clock reading checked against `timeout` before each
attempt. -/
def wait_for_server : List PollOutcome → Nat → Nat → Bool
  | [], _, _ => false
  | o :: rest, elapsed, timeout =>
    if elapsed < timeout then
      match o with
      | PollOutcome.success => true
      | PollOutcome.failure d => wait_for_server rest (elapsed + d + 5) timeout
    else false

/-
  =============  TissaiaLauncher.start_dev_server  =============
  src/launch_tissaia.py lines 329-359.

      server_log = self.logs_dir / "server.log"
      server_log_file = open(server_log, 'w')
      self.dev_server_process = subprocess.Popen(['npm', 'run', 'dev'], ...)
      if self.wait_for_server():
          return True
      else:
          self.stop_dev_server()
          return False
  (any exception: log the error, return False)
-/

/-- Observable outcome of start_dev_server: its boolean, the handle
left in self.dev_server_process, whether logs/server.log was created,
and the argument stop_dev_server was invoked on, if it was. -/
structure StartResult where
  ok : Bool
  proc : Option Proc
  serverLogCreated : Bool
  stopInvokedOn : Option (Option Proc)
deriving DecidableEq

/-- TissaiaLauncher.start_dev_server (lines 329-359). `spawn` is the
handle Popen returns, or none when Popen raises (server.log was
already opened by then). The poll runs with the default 30-second
timeout. -/
def start_dev_server (spawn : Option Proc) (trace : List PollOutcome) : StartResult :=
  match spawn with
  | none => ⟨false, none, true, none⟩
  | some p =>
    if wait_for_server trace 0 300 then ⟨true, some p, true, none⟩
    else ⟨false, (stop_dev_server (some p)).1, true, some (some p)⟩

/-
  =============  check_node / check_npm  =============
  src/launch_tissaia.py lines 141-164 and 166-186.

      result = subprocess.run(['node', '--version'], ..., timeout=5)
      if result.returncode == 0:
          self.logger.info("... found"); return True
      else:
          raise FileNotFoundError
      except (FileNotFoundError, subprocess.TimeoutExpired):
          self.logger.error("... not found!"); return False
-/

/-- TissaiaLauncher.check_node (lines 141-164). The argument is the
outcome of running `node --version`: none when the binary is absent or
the 5-second timeout expires, some code for an exit code. Returns the
boolean plus the startup-log lines written. -/
def check_node (result : Option Int) : Bool × List String :=
  match result with
  | some code =>
    if code = 0 then (true, ["Node.js found"])
    else (false, ["Node.js not found!"])
  | none => (false, ["Node.js not found!"])

/-- TissaiaLauncher.check_npm (lines 166-186), same shape for
`npm --version`. -/
def check_npm (result : Option Int) : Bool × List String :=
  match result with
  | some code =>
    if code = 0 then (true, ["npm found"])
    else (false, ["npm not found!"])
  | none => (false, ["npm not found!"])

/-
  =============  TissaiaLauncher.install_dependencies  =============
  src/launch_tissaia.py lines 237-277.

      process = subprocess.Popen(['npm', 'install'], ...)
      while process.poll() is None: ...spinner...
      if process.returncode == 0:
          self.logger.info("installed successfully"); return True
      else:
          self.logger.error("Installation failed")
          self.logger.error(f"Check log: {npm_log}"); return False
      except Exception as e:
          self.logger.error(f"Error: {e}"); return False
-/

/-- Outcome of the single `npm install` spawn: the process exits with
a code, or spawning/waiting raises an exception. -/
inductive InstallOutcome
  | exited (code : Int)
  | raised (msg : String)
deriving DecidableEq

/-- Observable outcome of install_dependencies: its boolean, how many
processes it spawned, and the log lines written. -/
structure InstallResult where
  ok : Bool
  spawns : Nat
  log : List String
deriving DecidableEq

/-- TissaiaLauncher.install_dependencies (lines 237-277). One spawn,
no retry; the boolean is the only result surfaced to the caller. -/
def install_dependencies : InstallOutcome → InstallResult
  | InstallOutcome.exited code =>
    if code = 0 then ⟨true, 1, ["Dependencies installed successfully"]⟩
    else ⟨false, 1, ["Installation failed", "Check log: npm_install.log"]⟩
  | InstallOutcome.raised e => ⟨false, 1, ["Error: " ++ e]⟩

/-
  =============  TissaiaLauncher.launch_chrome_app  =============
  src/launch_tissaia.py lines 361-397.

      try:
          if self.chrome_path:
              self.chrome_process = subprocess.Popen(cmd, ...)
              self.logger.info("Chrome app launched")
          else:
              webbrowser.open(self.dev_server_url)
              self.logger.info("Browser opened")
          self.chat_logger.info(f"[SYSTEM] Application launched at {url}")
          return True
      except Exception as e:
          self.logger.error(f"Failed to launch: {e}")
          return False

  Note the chat_logger line sits inside the try block after the spawn:
  an exception raised by the spawn jumps straight to the handler, so
  no chat-log line is written on the failure path.
-/

/-- Outcome of the browser spawn (Popen or webbrowser.open): it
returns, or raises with a message. -/
inductive SpawnResult
  | ok
  | err (msg : String)
deriving DecidableEq

/-- Observable outcome of launch_chrome_app: its boolean, the lines
appended to the chat log, and the error lines logged. -/
structure LaunchResult where
  ok : Bool
  chatLog : List String
  errorLog : List String
deriving DecidableEq

/-- self.dev_server_url (line 70). -/
def dev_server_url : String := "http://localhost:5173"

/-- TissaiaLauncher.launch_chrome_app (lines 361-397). `chrome_path`
is self.chrome_path as set by check_chrome; `sr` is the outcome of
whichever spawn the branch performs. -/
def launch_chrome_app (chrome_path : Option String) (sr : SpawnResult)
    (url : String) : LaunchResult :=
  match chrome_path, sr with
  | some _, SpawnResult.ok =>
    ⟨true, ["[SYSTEM] Application launched at " ++ url], []⟩
  | some _, SpawnResult.err e => ⟨false, [], ["Failed to launch: " ++ e]⟩
  | none, SpawnResult.ok =>
    ⟨true, ["[SYSTEM] Application launched at " ++ url], []⟩
  | none, SpawnResult.err e => ⟨false, [], ["Failed to launch: " ++ e]⟩

/-
  =============  TissaiaLauncher.run / cleanup / main  =============
  src/launch_tissaia.py lines 479-556.

      def cleanup(self):                                  # lines 479-493
          self.chat_logger.info("[SYSTEM] Application shutdown")
          self.stop_dev_server()
          if self.chrome_process:
              try: self.chrome_process.terminate()
              except: pass
          self.logger.info("Cleanup complete")
          sys.exit(0)

      def run(self):                                      # lines 495-547
          try:
              self.print_banner()
              if not self.check_node() or not self.check_npm(): return False
              self.check_chrome()
              if not self.check_dependencies():
                  if not self.install_dependencies(): return False
              if not self.check_env_file(): return False
              if not self.start_dev_server(): return False
              if not self.launch_chrome_app(): return False
              self.run_in_tray()
              return True
          except KeyboardInterrupt:
              self.cleanup(); return False
          except Exception as e:
              self.debug_logger.exception("Fatal error in launcher")
              self.cleanup(); return False

      def main():                                         # lines 549-553
          launcher = TissaiaLauncher()
          success = launcher.run()
          sys.exit(0 if success else 1)

  cleanup ends with sys.exit(0), which raises SystemExit. SystemExit
  derives from BaseException, not Exception, so it escapes both except
  clauses of run: the `return False` after each cleanup() call is dead
  code, the SystemExit propagates out of run and out of main before
  main reaches its own sys.exit line, and the process terminates with
  status 0. The model keeps that path explicit as RunOutcome.sysExited
  with the code cleanup supplies.
-/

/-- Observable effects of the launch sequence the claims inspect:
startup-log lines, whether install_dependencies ran, whether
logs/server.log was created, whether start_dev_server ran. -/
structure Events where
  startupLog : List String
  installAttempted : Bool
  serverLogCreated : Bool
  serverStartAttempted : Bool
deriving DecidableEq

/-- Startup-log lines print_banner writes (lines 118-139). -/
def bannerLog : List String := ["Tissaia AI Launcher started"]

/-- The outcomes of every external interaction one run of the
launcher performs, in the order the sequence consults them. `fault`
injects an unexpected exception raised somewhere inside the try block
of run (none for a run in which no such exception occurs). -/
structure RunConfig where
  nodeResult : Option Int
  npmResult : Option Int
  chromePathFound : Option String
  depsPresent : Bool
  installOutcome : InstallOutcome
  envFileContent : Option String
  userInput : String
  serverSpawn : Option Proc
  pollTrace : List PollOutcome
  chromeSpawn : SpawnResult
  fault : Option String

/-- run, lines 515-536: the server start and browser launch
(check_env_file on line 512 always returned True, so the sequence
never stops there). -/
def run_server_phase (cfg : RunConfig) (ev : Events) : Bool × Events :=
  if (check_env_file cfg.envFileContent cfg.userInput).result = false then
    (false, ev)
  else
    if (start_dev_server cfg.serverSpawn cfg.pollTrace).ok = false then
      (false,
        { ev with
            serverStartAttempted := true,
            serverLogCreated :=
              (start_dev_server cfg.serverSpawn cfg.pollTrace).serverLogCreated })
    else
      if (launch_chrome_app cfg.chromePathFound cfg.chromeSpawn
            dev_server_url).ok = false then
        (false,
          { ev with
              serverStartAttempted := true,
              serverLogCreated :=
                (start_dev_server cfg.serverSpawn cfg.pollTrace).serverLogCreated })
      else
        (true,
          { ev with
              serverStartAttempted := true,
              serverLogCreated :=
                (start_dev_server cfg.serverSpawn cfg.pollTrace).serverLogCreated })

/-- run, lines 504-513: check_chrome (never fails, line 222 returns
True either way), then check_dependencies / install_dependencies. -/
def run_deps_phase (cfg : RunConfig) (ev : Events) : Bool × Events :=
  if cfg.depsPresent then run_server_phase cfg ev
  else
    if (install_dependencies cfg.installOutcome).ok = false then
      (false,
        { ev with
            installAttempted := true,
            startupLog := ev.startupLog ++
              (install_dependencies cfg.installOutcome).log })
    else
      run_server_phase cfg
        { ev with
            installAttempted := true,
            startupLog := ev.startupLog ++
              (install_dependencies cfg.installOutcome).log }

/-- run, line 501, second conjunct: check_npm. -/
def run_npm_phase (cfg : RunConfig) (ev : Events) : Bool × Events :=
  if (check_npm cfg.npmResult).1 = false then
    (false, { ev with startupLog := ev.startupLog ++ (check_npm cfg.npmResult).2 })
  else
    run_deps_phase cfg
      { ev with startupLog := ev.startupLog ++ (check_npm cfg.npmResult).2 }

/-- The try-block body of run (lines 497-536) for a run in which no
unexpected exception is raised: print_banner, then the short-circuit
sequence. The boolean is what run returns (True meaning the idle loop
was reached and later left). -/
def run_body (cfg : RunConfig) : Bool × Events :=
  if (check_node cfg.nodeResult).1 = false then
    (false, ⟨bannerLog ++ (check_node cfg.nodeResult).2, false, false, false⟩)
  else
    run_npm_phase cfg
      ⟨bannerLog ++ (check_node cfg.nodeResult).2, false, false, false⟩

/-- TissaiaLauncher.cleanup (lines 479-493): stop the dev server,
terminate the browser process, then sys.exit(0). Returns the handle
state and the exit status sys.exit raises. -/
def cleanup (dev : Option Proc) : Option Proc × Nat :=
  ((stop_dev_server dev).1, 0)

/-- How one run of TissaiaLauncher.run ends: a normal return of its
boolean, or a SystemExit from cleanup propagating out of it. -/
inductive RunOutcome
  | returned (b : Bool)
  | sysExited (code : Nat)
deriving DecidableEq

/-- TissaiaLauncher.run (lines 495-547). When an unexpected exception
is raised inside the try block, the `except Exception` handler logs it
and calls cleanup; cleanup ends with sys.exit(0) and the resulting
SystemExit is not an Exception, so it escapes the handler (the
handler's `return False` is dead code) and run ends by terminating
the process with cleanup's status. -/
def run (cfg : RunConfig) : RunOutcome :=
  match cfg.fault with
  | some _ => RunOutcome.sysExited (cleanup none).2
  | none => RunOutcome.returned (run_body cfg).1

/-- main (lines 549-553): sys.exit(0 if success else 1), with a
SystemExit out of run carrying its own status instead. The value is
the exit status of the process. -/
def main (cfg : RunConfig) : Nat :=
  match run cfg with
  | RunOutcome.returned b => if b then 0 else 1
  | RunOutcome.sysExited code => code

/-- A run in which every external interaction succeeds: both version
checks exit 0, Chrome is found, dependencies are cached, the .env file
is configured, the server spawns and answers the first poll, the
browser spawns, and no unexpected exception occurs. -/
def baseCfg : RunConfig :=
  { nodeResult := some 0
    npmResult := some 0
    chromePathFound := some "/usr/bin/google-chrome"
    depsPresent := true
    installOutcome := InstallOutcome.exited 0
    envFileContent := some "API_KEY=abc123\n"
    userInput := ""
    serverSpawn := some ⟨true, true⟩
    pollTrace := [PollOutcome.success]
    chromeSpawn := SpawnResult.ok
    fault := none }

/-
  ===================  helper lemmas  ===================
-/

/-- The prompt branch always reports that the prompt ran. -/
lemma promptBranch_prompted (input : String) :
    (promptBranch input).prompted = true := by
  unfold promptBranch
  split <;> rfl

/-- The prompt branch always writes the .env file. -/
lemma promptBranch_written (input : String) :
    (promptBranch input).written ≠ none := by
  unfold promptBranch
  split <;> simp

/-- Whenever check_node reports failure it has written the not-found
line (either the binary was absent, the timeout expired, or the exit
code was non-zero: all reach the same except block). -/
lemma check_node_eq_of_fail (r : Option Int)
    (h : (check_node r).1 = false) :
    check_node r = (false, ["Node.js not found!"]) := by
  cases r with
  | none => rfl
  | some code =>
    by_cases hc : code = 0
    · simp [check_node, hc] at h
    · simp [check_node, hc]

/-- The poll loop reports failure on a trace with no successful
response, however many connection errors it holds. -/
lemma wait_for_server_all_failures (trace : List PollOutcome) :
    ∀ elapsed : Nat, (∀ o ∈ trace, o.isFailure = true) →
      wait_for_server trace elapsed 300 = false := by
  induction trace with
  | nil => intro e _; rfl
  | cons o rest ih =>
    intro e h
    have ho := h o (List.mem_cons_self o rest)
    cases o with
    | success => simp [PollOutcome.isFailure] at ho
    | failure d =>
      show (if e < 300 then wait_for_server rest (e + d + 5) 300 else false) = false
      split
      · exact ih (e + d + 5) (fun x hx => h x (List.mem_cons_of_mem _ hx))
      · rfl

/-- The poll loop reports success at the first successful response,
provided the failures before it fit inside the overall timeout. -/
lemma wait_for_server_first_success (rest : List PollOutcome) :
    ∀ (fs : List PollOutcome) (elapsed : Nat),
      (∀ o ∈ fs, o.isFailure = true) → elapsed + traceCost fs < 300 →
      wait_for_server (fs ++ PollOutcome.success :: rest) elapsed 300 = true := by
  intro fs
  induction fs with
  | nil =>
    intro e _ hc
    simp [traceCost] at hc
    show (if e < 300 then true else false) = true
    simp [hc]
  | cons f fs ih =>
    intro e h hc
    have hf := h f (List.mem_cons_self f fs)
    cases f with
    | success => simp [PollOutcome.isFailure] at hf
    | failure d =>
      have hcost : traceCost (PollOutcome.failure d :: fs) = d + 5 + traceCost fs := rfl
      rw [hcost] at hc
      have he : e < 300 := by omega
      show (if e < 300 then
        wait_for_server (fs ++ PollOutcome.success :: rest) (e + d + 5) 300
        else false) = true
      rw [if_pos he]
      exact ih (e + d + 5) (fun x hx => h x (List.mem_cons_of_mem _ hx)) (by omega)

/-
  ===================  claim theorems  ===================
-/

/-- Claim C2: on GET, an absent GOOGLE_API_KEY yields status 500 with
a plain-text body, and any non-empty value yields status 200 with
Content-Type application/json and a JSON body holding "status":
"Alive" plus the two informational string fields backend and
react_version_target. -/
theorem do_GET_spec (k : String) (hk : ¬ k = "") :
    (do_GET none).status = 500
  ∧ (do_GET none).body = Body.text "Missing Configuration"
  ∧ (do_GET (some k)).status = 200
  ∧ (do_GET (some k)).contentType = some "application/json"
  ∧ (do_GET (some k)).body = Body.json response_data
  ∧ response_data.lookup "status" = some "Alive"
  ∧ response_data.lookup "backend" = some "Python Serverless"
  ∧ response_data.lookup "react_version_target" = some "19.2.1"
  ∧ response_data.length = 3 := by
  have hng : do_GET (some k) =
      ⟨200, some "application/json", Body.json response_data⟩ := by
    simp [do_GET, hk]
  refine ⟨rfl, rfl, ?_, ?_, ?_, by decide, by decide, by decide, by decide⟩ <;>
    rw [hng]

/-- Witness for do_GET_spec at the concrete secret "secret". -/
theorem do_GET_spec_witness :
    (do_GET (some "secret")).status = 200
  ∧ (do_GET (some "secret")).contentType = some "application/json" := by
  have h := do_GET_spec "secret" (by decide)
  exact ⟨h.2.2.1, h.2.2.2.1⟩

/-- Claim C10: a GOOGLE_API_KEY set to the empty string is handled
exactly like an absent one: status 500 with the plain-text body, not
200, because the gate tests truthiness of the value. -/
theorem do_GET_empty_secret :
    do_GET (some "") = do_GET none
  ∧ (do_GET (some "")).status = 500
  ∧ (do_GET (some "")).body = Body.text "Missing Configuration" :=
  ⟨rfl, rfl, rfl⟩

/-- Claim C3, counterexample: the content "API_KEY=\nX=1" holds the
substring API_KEY= and differs from the literal empty-assignment
default "API_KEY=\n", so the claim calls it configured, yet
check_env_file re-prompts on it (the code tests startswith, not
equality). -/
theorem check_env_file_c3_counterexample :
    containsSub "API_KEY=" "API_KEY=\nX=1" = true
  ∧ "API_KEY=\nX=1" ≠ "API_KEY=\n"
  ∧ (check_env_file (some "API_KEY=\nX=1") "").prompted = true := by
  decide

/-- Claim C3 as amended: the key is treated as configured (no prompt)
exactly when the substring API_KEY= appears in the content and the
content does not START WITH the empty-assignment default line; in
particular a file holding exactly the default re-prompts. -/
theorem check_env_file_configured_iff (content input : String) :
    ((check_env_file (some content) input).prompted = false ↔
      (containsSub "API_KEY=" content = true
        ∧ startsWithStr content "API_KEY=\n" = false))
  ∧ (check_env_file (some "API_KEY=\n") input).prompted = true := by
  constructor
  · unfold check_env_file
    cases h1 : containsSub "API_KEY=" content <;>
      cases h2 : startsWithStr content "API_KEY=\n" <;>
        simp [h1, h2, promptBranch_prompted]
  · exact promptBranch_prompted input

/-- Claim C4, counterexample: the content "API_KEY=\nAPI_KEY=abc123"
holds the substring API_KEY=abc123, yet check_env_file prompts and
writes the file, because the content starts with the empty-assignment
default line. -/
theorem check_env_file_c4_counterexample :
    containsSub "API_KEY=abc123" "API_KEY=\nAPI_KEY=abc123" = true
  ∧ (check_env_file (some "API_KEY=\nAPI_KEY=abc123") "xyz").prompted = true
  ∧ (check_env_file (some "API_KEY=\nAPI_KEY=abc123") "xyz").written ≠ none := by
  decide

/-- Claim C4 as amended: on a file whose content holds API_KEY=abc123
and does not start with the empty-assignment default line, the
ensurer returns true, runs no prompt, and writes nothing. -/
theorem check_env_file_key_configured (content input : String)
    (h1 : containsSub "API_KEY=abc123" content = true)
    (h2 : startsWithStr content "API_KEY=\n" = false) :
    check_env_file (some content) input = ⟨true, false, none⟩ := by
  have hsub : containsSub "API_KEY=" content = true := by
    have ha : List.IsInfix "API_KEY=".data "API_KEY=abc123".data := by decide
    have hb : List.IsInfix "API_KEY=abc123".data content.data :=
      of_decide_eq_true h1
    exact decide_eq_true (ha.trans hb)
  simp [check_env_file, hsub, h2]

/-- Witness for check_env_file_key_configured at the one-line file
"API_KEY=abc123". -/
theorem check_env_file_key_configured_witness :
    containsSub "API_KEY=abc123" "API_KEY=abc123" = true
  ∧ startsWithStr "API_KEY=abc123" "API_KEY=\n" = false
  ∧ check_env_file (some "API_KEY=abc123") "" = ⟨true, false, none⟩ :=
  ⟨by decide, by decide,
    check_env_file_key_configured "API_KEY=abc123" "" (by decide) (by decide)⟩

/-- Claim C5: the readiness poll returns true at the first successful
response, returns false when no success arrives inside the 30-second
timeout however many connection errors occurred, and in that case
start_dev_server invokes stop_dev_server on the still-running child
handle it spawned. -/
theorem wait_for_server_spec (fs rest trace : List PollOutcome) (p : Proc)
    (hfs : ∀ o ∈ fs, o.isFailure = true) (hcost : traceCost fs < 300)
    (htrace : ∀ o ∈ trace, o.isFailure = true) (hp : p.alive = true) :
    wait_for_server (fs ++ PollOutcome.success :: rest) 0 300 = true
  ∧ wait_for_server trace 0 300 = false
  ∧ (start_dev_server (some p) trace).ok = false
  ∧ (start_dev_server (some p) trace).stopInvokedOn = some (some p)
  ∧ procAliveOpt (some p) = true := by
  have h1 := wait_for_server_first_success rest fs 0 hfs (by omega)
  have h2 := wait_for_server_all_failures trace 0 htrace
  refine ⟨h1, h2, ?_, ?_, hp⟩ <;> simp [start_dev_server, h2]

/-- Witness for wait_for_server_spec: one 1-second connection error
then a success yields true; four connection errors and no response
yields false with stop invoked on the spawned handle. -/
theorem wait_for_server_spec_witness :
    wait_for_server [PollOutcome.failure 10, PollOutcome.success] 0 300 = true
  ∧ wait_for_server
      [PollOutcome.failure 10, PollOutcome.failure 10,
       PollOutcome.failure 10, PollOutcome.failure 10] 0 300 = false
  ∧ (start_dev_server (some ⟨true, true⟩)
      [PollOutcome.failure 10, PollOutcome.failure 10,
       PollOutcome.failure 10, PollOutcome.failure 10]).stopInvokedOn =
        some (some ⟨true, true⟩) := by
  have h := wait_for_server_spec [PollOutcome.failure 10] [PollOutcome.success]
    [PollOutcome.failure 10, PollOutcome.failure 10,
     PollOutcome.failure 10, PollOutcome.failure 10] ⟨true, true⟩
    (by decide) (by decide) (by decide) rfl
  exact ⟨h.1, h.2.1, h.2.2.2.1⟩

/-- Claim C6: stop on a never-started handle is a no-op that raises
nothing; on a running process it terminates, waits the 5-second
grace, and kills exactly when the process does not exit on terminate,
leaving it dead; and a second stop in succession raises nothing and
never reaches the kill. -/
theorem stop_dev_server_spec (p : Proc) (q : Option Proc)
    (hp : p.alive = true) :
    stop_dev_server none = (none, [])
  ∧ (stop_dev_server (some p)).2 =
      (if p.exitsOnTerm then [ProcAction.terminate]
       else [ProcAction.terminate, ProcAction.kill])
  ∧ procAliveOpt (stop_dev_server (some p)).1 = false
  ∧ ProcAction.kill ∉ (stop_dev_server (stop_dev_server q).1).2 := by
  obtain ⟨a, t⟩ := p
  have ha : a = true := hp
  subst ha
  rcases q with _ | ⟨a0, t0⟩
  · cases t <;> decide
  · cases t <;> cases a0 <;> cases t0 <;> decide

/-- Witness for stop_dev_server_spec on a running process that
ignores the terminate signal, with a second stop on a handle that was
stopped after a clean terminate. -/
theorem stop_dev_server_spec_witness :
    (stop_dev_server (some ⟨true, false⟩)).2 =
      [ProcAction.terminate, ProcAction.kill]
  ∧ procAliveOpt (stop_dev_server (some ⟨true, false⟩)).1 = false
  ∧ ProcAction.kill ∉
      (stop_dev_server (stop_dev_server (some ⟨true, true⟩)).1).2 := by
  have h := stop_dev_server_spec ⟨true, false⟩ (some ⟨true, true⟩) rfl
  exact ⟨by(rw [h.2.1]; rfl), h.2.2.1, h.2.2.2⟩

/-- Claim C7: whenever the Node.js check fails, the sequence returns
before any install attempt and any server-start attempt, the process
exits with status 1, the not-found line is in the startup log, and
logs/server.log is never created. -/
theorem run_missing_runtime (cfg : RunConfig) (h0 : cfg.fault = none)
    (h : (check_node cfg.nodeResult).1 = false) :
    main cfg = 1
  ∧ (run_body cfg).2.installAttempted = false
  ∧ (run_body cfg).2.serverStartAttempted = false
  ∧ (run_body cfg).2.serverLogCreated = false
  ∧ "Node.js not found!" ∈ (run_body cfg).2.startupLog := by
  have he := check_node_eq_of_fail cfg.nodeResult h
  have hrb : run_body cfg =
      (false, ⟨bannerLog ++ ["Node.js not found!"], false, false, false⟩) := by
    unfold run_body
    rw [he]
    rfl
  refine ⟨?_, ?_, ?_, ?_, ?_⟩ <;>
    simp [main, run, h0, hrb, bannerLog]

/-- Witness for run_missing_runtime: the all-good run with the node
binary absent. -/
theorem run_missing_runtime_witness :
    main { baseCfg with nodeResult := none } = 1
  ∧ (run_body { baseCfg with nodeResult := none }).2.serverLogCreated = false := by
  have h := run_missing_runtime { baseCfg with nodeResult := none } rfl (by decide)
  exact ⟨h.1, h.2.2.2.1⟩

/-- Claim C8: the installer returns true exactly when the npm install
process exits with code 0; any non-zero code and any thrown execution
error yield false; there is exactly one spawn (no retry); and a
non-zero exit surfaces the pointer to the npm_install.log file. -/
theorem install_dependencies_spec (c : Int) (e : String) (hc : ¬ c = 0) :
    (install_dependencies (InstallOutcome.exited 0)).ok = true
  ∧ (install_dependencies (InstallOutcome.exited c)).ok = false
  ∧ "Check log: npm_install.log" ∈ (install_dependencies (InstallOutcome.exited c)).log
  ∧ (install_dependencies (InstallOutcome.raised e)).ok = false
  ∧ (∀ o : InstallOutcome, (install_dependencies o).spawns = 1) := by
  refine ⟨rfl, ?_, ?_, rfl, ?_⟩
  · simp [install_dependencies, hc]
  · simp [install_dependencies, hc]
  · intro o
    cases o with
    | exited code => by_cases h0 : code = 0 <;> simp [install_dependencies, h0]
    | raised m => rfl

/-- Witness for install_dependencies_spec at exit code 1 and a raised
OSError. -/
theorem install_dependencies_spec_witness :
    (install_dependencies (InstallOutcome.exited 1)).ok = false
  ∧ "Check log: npm_install.log" ∈
      (install_dependencies (InstallOutcome.exited 1)).log
  ∧ (install_dependencies (InstallOutcome.raised "OSError")).ok = false := by
  have h := install_dependencies_spec 1 "OSError" (by decide)
  exact ⟨h.2.1, h.2.2.1, h.2.2.2.1⟩

/-- Claim C9, counterexample: with a located browser path and a spawn
that raises, launch_chrome_app records zero chat-log lines, not
exactly one, while returning false. -/
theorem launch_chrome_app_c9_counterexample :
    (launch_chrome_app (some "/usr/bin/google-chrome")
      (SpawnResult.err "spawn failed") dev_server_url).chatLog.length = 0
  ∧ (launch_chrome_app (some "/usr/bin/google-chrome")
      (SpawnResult.err "spawn failed") dev_server_url).ok = false :=
  ⟨rfl, rfl⟩

/-- Claim C9 as amended: on every invocation in which the spawn does
not raise, exactly one structured chat-log line noting the launch and
the URL is recorded, the same line whether the located-browser path
or the OS-default path was taken; a spawn error is caught and
surfaced as false without propagating, and then no chat-log line is
recorded. -/
theorem launch_chrome_app_spec (cp : Option String) (e url : String) :
    (launch_chrome_app cp SpawnResult.ok url).ok = true
  ∧ (launch_chrome_app cp SpawnResult.ok url).chatLog =
      ["[SYSTEM] Application launched at " ++ url]
  ∧ (launch_chrome_app cp (SpawnResult.err e) url).ok = false
  ∧ (launch_chrome_app cp (SpawnResult.err e) url).chatLog = []
  ∧ (launch_chrome_app cp (SpawnResult.err e) url).errorLog =
      ["Failed to launch: " ++ e] := by
  cases cp <;> exact ⟨rfl, rfl, rfl, rfl, rfl⟩

/-- Claim C1: exit statuses of the launcher process. A fully
successful run that reaches and leaves the idle loop exits 0 and a
short-circuited failure exits 1, as the claim states; but a run in
which an unexpected exception escapes the sequence exits 0, not the
claimed 1, because the except-Exception handler calls cleanup, whose
final sys.exit(0) raises a SystemExit that escapes the handler before
its return False is reached. -/
theorem main_exit_codes :
    main baseCfg = 0
  ∧ main { baseCfg with nodeResult := none } = 1
  ∧ main { baseCfg with fault := some "ValueError" } = 0 := by
  decide

end Tissaia
